import Mathlib

/-!
Shallow embedding of the Los Angeles building-permit dashboard pipeline
(src/app.py): preprocessing (date and valuation parsing), the left join of
permit records onto contractor attributes, the sidebar filter, and the four
groupby aggregations.  Tabular data is modelled as lists of records; a
nullable column entry is an `Option`; pandas null semantics (comparisons and
membership tests on null are false, `groupby` drops null keys, `count` and
`nunique` ignore nulls) are made explicit in the definitions.
-/

namespace Dashboard

/-- A raw permit row as loaded from `LA_PERMIT_DATA.PUBLIC.PERMIT_RECORDS`
(src/app.py line 12), before preprocessing.  `ISSUE_DATE` and `VALUATION`
arrive as strings; the other columns are nullable strings. -/
structure PermitRecord where
  issue_date : String
  valuation : String
  permit_type : Option String
  contractor_business_name : Option String
  census_tract : Option String
deriving DecidableEq, Repr

/-- A contractor row from `LA_PERMIT_DATA.PUBLIC.MASTER_LICENSE`
(src/app.py line 14), projected to the two columns the join uses
(line 30). -/
structure Contractor where
  business_name : Option String
  business_type : Option String
deriving DecidableEq, Repr

/-- A calendar date, the result of parsing an `ISSUE_DATE` string
(src/app.py line 19). -/
structure Date where
  year : Nat
  month : Nat
  day : Nat
deriving DecidableEq, Repr

/-- A permit row after preprocessing (src/app.py lines 19-27): the parsed
issue date (null on parse failure), the derived year, and the numeric
valuation (null on parse failure). -/
structure TransformedRecord where
  issue_date : Option Date
  year : Option Int
  valuation : Option ℚ
  permit_type : Option String
  contractor_business_name : Option String
  census_tract : Option String
deriving DecidableEq, Repr

/-- A row of `merged_df` (src/app.py lines 29-34): a transformed permit row
extended with the matched contractor columns `BUSINESS_NAME` and
`BUSINESS_TYPE` (both null when no contractor matches). -/
structure MergedRecord where
  issue_date : Option Date
  year : Option Int
  valuation : Option ℚ
  permit_type : Option String
  contractor_business_name : Option String
  census_tract : Option String
  business_name : Option String
  business_type : Option String
deriving DecidableEq, Repr

/-! ### String parsing primitives

`pd.to_datetime(..., errors='coerce')` and `pd.to_numeric(..., errors='coerce')`
are modelled for ISO `YYYY-MM-DD` dates and plain decimal numerals, the
formats the source data and the spec examples use; any other string parses
to null, exactly as `errors='coerce'` yields `NaT`/`NaN`. -/

/-- Split a character list on a separator character (every occurrence,
keeping empty segments, as `str.split` does). -/
def splitOnChar (sep : Char) : List Char → List (List Char)
  | [] => [[]]
  | c :: cs =>
    match splitOnChar sep cs, c == sep with
    | r, true => [] :: r
    | [], false => [[c]]
    | h :: t, false => (c :: h) :: t

/-- Accumulate the value of a digit string; null on any non-digit. -/
def digitsValAux (acc : Nat) : List Char → Option Nat
  | [] => some acc
  | c :: cs =>
    if c.isDigit then digitsValAux (acc * 10 + (c.toNat - 48)) cs else none

/-- Numeric value of a non-empty all-digit character list, else null. -/
def digitsVal (cs : List Char) : Option Nat :=
  if cs.isEmpty then none else digitsValAux 0 cs

/-- Leap-year test of the Gregorian calendar. -/
def isLeapYear (y : Nat) : Bool :=
  (y % 4 == 0 && y % 100 != 0) || y % 400 == 0

/-- Number of days in a month of a given year. -/
def daysInMonth (y m : Nat) : Nat :=
  if m == 2 then (if isLeapYear y then 29 else 28)
  else if m == 4 || m == 6 || m == 9 || m == 11 then 30
  else 31

/-- Parse an `ISSUE_DATE` string as an ISO `YYYY-MM-DD` calendar date,
returning null for anything unparseable: this models
`pd.to_datetime(records['ISSUE_DATE'], errors='coerce')`
(src/app.py line 19). -/
def parseDate (s : String) : Option Date :=
  match splitOnChar '-' s.data with
  | [y, m, d] =>
    match digitsVal y, digitsVal m, digitsVal d with
    | some yv, some mv, some dv =>
      if y.length == 4 && 1 ≤ mv && mv ≤ 12 && 1 ≤ dv && dv ≤ daysInMonth yv mv
      then some ⟨yv, mv, dv⟩
      else none
    | _, _, _ => none
  | _ => none

/-- Remove every `$` and `,` character: this models
`.str.replace("$", "", regex=False).str.replace(",", "", regex=False)`
(src/app.py lines 24-25). -/
def stripCurrency (s : String) : String :=
  ⟨s.data.filter (fun c => c != '$' && c != ',')⟩

/-- Parse an unsigned decimal numeral (`digits` or `digits.digits`) as a
rational, else null. -/
def parseUnsigned (cs : List Char) : Option ℚ :=
  match splitOnChar '.' cs with
  | [w] => (digitsVal w).map (fun n => (n : ℚ))
  | [w, f] =>
    match digitsVal w, digitsVal f with
    | some wn, some fn => some ((wn : ℚ) + (fn : ℚ) / ((10 : ℚ) ^ f.length))
    | _, _ => none
  | _ => none

/-- Parse a decimal numeral with optional leading minus sign as a rational,
returning null for anything unparseable: this models
`pd.to_numeric(..., errors='coerce')` (src/app.py line 27). -/
def parseNumeric (s : String) : Option ℚ :=
  match s.data with
  | '-' :: rest => (parseUnsigned rest).map (fun q => -q)
  | cs => parseUnsigned cs

/-! ### Transformer (src/app.py lines 19-27) -/

/-- Preprocess one permit row: parse the issue date (line 19), derive the
year from it (line 20, null when the date is null), and strip currency
characters from the valuation before numeric parsing (lines 22-27). -/
def transformRecord (r : PermitRecord) : TransformedRecord :=
  let d := parseDate r.issue_date
  { issue_date := d
    year := d.map (fun dd => (dd.year : Int))
    valuation := parseNumeric (stripCurrency r.valuation)
    permit_type := r.permit_type
    contractor_business_name := r.contractor_business_name
    census_tract := r.census_tract }

/-! ### Joiner (src/app.py lines 29-34) -/

/-- Extend a transformed permit row with matched contractor columns. -/
def extendRecord (t : TransformedRecord) (bn bt : Option String) : MergedRecord :=
  { issue_date := t.issue_date
    year := t.year
    valuation := t.valuation
    permit_type := t.permit_type
    contractor_business_name := t.contractor_business_name
    census_tract := t.census_tract
    business_name := bn
    business_type := bt }

/-- Rows a single permit row contributes to the left join: one extended row
per contractor whose `BUSINESS_NAME` equals the permit's
`CONTRACTOR_BUSINESS_NAME`, or a single row with null contractor columns
when no contractor matches. -/
def mergeOne (t : TransformedRecord) (cs : List Contractor) : List MergedRecord :=
  let ms := cs.filter (fun c => c.business_name == t.contractor_business_name)
  if ms.isEmpty then [extendRecord t none none]
  else ms.map (fun c => extendRecord t c.business_name c.business_type)

/-- The left join `records.merge(contractors[...], left_on=
'CONTRACTOR_BUSINESS_NAME', right_on='BUSINESS_NAME', how='left')`
(src/app.py lines 29-34): every left row is expanded by its matching
contractors, or kept once with nulls when unmatched. -/
def leftJoin (ts : List TransformedRecord) (cs : List Contractor) :
    List MergedRecord :=
  ts.flatMap (fun t => mergeOne t cs)

/-- The full `merged_df` built from raw permit and contractor tables
(src/app.py lines 19-34). -/
def mergedDf (records : List PermitRecord) (contractors : List Contractor) :
    List MergedRecord :=
  leftJoin (records.map transformRecord) contractors

/-! ### Filter engine (src/app.py lines 39-59) -/

/-- The sidebar state: the slider's year range and the two multiselect
selections (src/app.py lines 41-52). -/
structure FilterCriteria where
  year_lo : Int
  year_hi : Int
  permits : List String
  businesses : List String
deriving DecidableEq, Repr

/-- Nullable comparison `x >= b`, false on null as in pandas. -/
def optGe (x : Option Int) (b : Int) : Bool :=
  match x with
  | some y => decide (b ≤ y)
  | none => false

/-- Nullable comparison `x <= b`, false on null as in pandas. -/
def optLe (x : Option Int) (b : Int) : Bool :=
  match x with
  | some y => decide (y ≤ b)
  | none => false

/-- Nullable membership `x.isin(l)` for a null-free list `l`, false on null
as in pandas. -/
def optIsin (x : Option String) (l : List String) : Bool :=
  match x with
  | some s => l.contains s
  | none => false

/-- The boolean mask of src/app.py lines 55-58:
`(YEAR >= lo) & (YEAR <= hi) & PERMIT_TYPE.isin(permits) &
BUSINESS_TYPE.isin(businesses)`. -/
def rowPasses (c : FilterCriteria) (r : MergedRecord) : Bool :=
  optGe r.year c.year_lo && optLe r.year c.year_hi &&
    optIsin r.permit_type c.permits && optIsin r.business_type c.businesses

/-- Dataframe `filtered_df` (src/app.py lines 54-59): the merged rows satisfying the
mask. -/
def filteredView (c : FilterCriteria) (rows : List MergedRecord) :
    List MergedRecord :=
  rows.filter (rowPasses c)

/-- First-occurrence distinct elements, carrying the set already seen;
structural recursion on the remaining list. -/
def firstUniquesAux {α : Type} [DecidableEq α] (seen : List α) :
    List α → List α
  | [] => []
  | a :: as =>
    if a ∈ seen then firstUniquesAux seen as
    else a :: firstUniquesAux (a :: seen) as

/-- Distinct elements of a list in order of first occurrence, as pandas
`unique()` returns them. -/
def firstUniques {α : Type} [DecidableEq α] (l : List α) : List α :=
  firstUniquesAux [] l

/-- Model of `series.dropna().unique().tolist()` (src/app.py lines 48 and 51): the
distinct non-null values in order of first occurrence. -/
def dropnaUnique (l : List (Option String)) : List String :=
  firstUniques (l.filterMap id)

/-- The widget state at startup (src/app.py lines 41-52): the slider's
default value `(2013, 2023)` (its fixed bounds), every distinct non-null
`PERMIT_TYPE` of the permit table, and every distinct non-null
`BUSINESS_TYPE` of the contractor table. -/
def defaultCriteria (records : List PermitRecord)
    (contractors : List Contractor) : FilterCriteria :=
  { year_lo := 2013
    year_hi := 2023
    permits := dropnaUnique (records.map (fun r => r.permit_type))
    businesses := dropnaUnique (contractors.map (fun c => c.business_type)) }

/-! ### Sorting

A boolean-relation insertion sort standing in for pandas `groupby`'s
ascending key order and `sort_values`. -/

/-- Insert an element in front of the first list member it relates to. -/
def insertLe {α : Type} (le : α → α → Bool) (a : α) : List α → List α
  | [] => [a]
  | b :: bs => if le a b then a :: b :: bs else b :: insertLe le a bs

/-- Insertion sort by a boolean relation. -/
def sortLe {α : Type} (le : α → α → Bool) : List α → List α
  | [] => []
  | a :: as => insertLe le a (sortLe le as)

/-- Ascending order on strings, the pandas `groupby` key order. -/
def strLe (a b : String) : Bool := decide (a ≤ b)

/-- Ascending order on integers. -/
def intLe (a b : Int) : Bool := decide (a ≤ b)

/-! ### Aggregator (src/app.py lines 82-90, 104-107, 133-138, 160) -/

/-- One row of `df_permit` (src/app.py lines 82-90). -/
structure PermitTypeSummary where
  permit_type : String
  num_contractors : Nat
  num_permits : Nat
deriving DecidableEq, Repr

/-- Count of distinct non-null values, as pandas `nunique`. -/
def nuniqueOpt (l : List (Option String)) : Nat :=
  (firstUniques (l.filterMap id)).length

/-- The rows of a `groupby("PERMIT_TYPE")` group for a non-null key. -/
def permitGroup (rows : List MergedRecord) (k : String) : List MergedRecord :=
  rows.filter (fun r => r.permit_type == some k)

/-- Dataframe `df_permit` (src/app.py lines 82-90): group the filtered rows by
`PERMIT_TYPE` (null keys dropped, keys ascending), aggregate
`num_contractors = nunique(CONTRACTOR_BUSINESS_NAME)` and
`num_permits = count(PERMIT_TYPE)` (non-null count), then sort descending by
`num_contractors`. -/
def df_permit (rows : List MergedRecord) : List PermitTypeSummary :=
  let keys := sortLe strLe (firstUniques (rows.filterMap (fun r => r.permit_type)))
  let entries := keys.map (fun k =>
    let g := permitGroup rows k
    { permit_type := k
      num_contractors := nuniqueOpt (g.map (fun r => r.contractor_business_name))
      num_permits := (g.filterMap (fun r => r.permit_type)).length })
  sortLe (fun a b => decide (b.num_contractors ≤ a.num_contractors)) entries

/-- One row of `df_scatter` (src/app.py lines 104-107). -/
structure TractSummary where
  census_tract : String
  num_contractors : Nat
  avg_cost : Option ℚ
deriving DecidableEq, Repr

/-- Mean of the non-null values of a nullable numeric column, null when no
value remains, as pandas `mean`. -/
def meanOpt (l : List (Option ℚ)) : Option ℚ :=
  let vs := l.filterMap id
  if vs.length = 0 then none else some (vs.sum / (vs.length : ℚ))

/-- Dataframe `df_scatter` (src/app.py lines 104-107): group the filtered rows by
`CENSUS_TRACT` (null keys dropped, keys ascending), aggregate
`num_contractors = nunique(CONTRACTOR_BUSINESS_NAME)` and
`avg_cost = mean(VALUATION)`. -/
def df_scatter (rows : List MergedRecord) : List TractSummary :=
  (sortLe strLe (firstUniques (rows.filterMap (fun r => r.census_tract)))).map
    (fun k =>
      let g := rows.filter (fun r => r.census_tract == some k)
      { census_tract := k
        num_contractors := nuniqueOpt (g.map (fun r => r.contractor_business_name))
        avg_cost := meanOpt (g.map (fun r => r.valuation)) })

/-- One row of `df_time` (src/app.py lines 133-138); `permit_count` is the
column renamed to "Number of Permits" on line 141. -/
structure YearSummary where
  year : Int
  permit_count : Nat
deriving DecidableEq, Repr

/-- Dataframe `df_time` (src/app.py lines 133-138): group the filtered rows by `YEAR`
(null keys dropped, keys ascending), aggregate
`permit_count = count(PERMIT_TYPE)` (non-null count), then
`sort_values("YEAR")` ascending. -/
def df_time (rows : List MergedRecord) : List YearSummary :=
  let keys := sortLe intLe (firstUniques (rows.filterMap (fun r => r.year)))
  let entries := keys.map (fun k =>
    { year := k
      permit_count :=
        ((rows.filter (fun r => r.year == some k)).filterMap
          (fun r => r.permit_type)).length })
  sortLe (fun a b => intLe a.year b.year) entries

/-- The numeric-column part of `describe(include='all')` (src/app.py
line 160): non-null count, mean, min and max; the remaining numeric
statistics (std, quartiles) are null exactly when the mean is, so the
empty-input behaviour is fully represented. -/
structure NumericStats where
  count : Nat
  mean : Option ℚ
  min : Option ℚ
  max : Option ℚ
deriving DecidableEq, Repr

/-- The categorical-column part of `describe(include='all')`: non-null
count, distinct non-null count, most frequent value and its frequency
(null on an all-null column). -/
structure CategoricalStats where
  count : Nat
  unique : Nat
  top : Option String
  freq : Option Nat
deriving DecidableEq, Repr

/-- Minimum of the non-null values, null when none, as pandas `min`. -/
def minOpt (l : List (Option ℚ)) : Option ℚ :=
  (l.filterMap id).foldr (fun v acc =>
    match acc with
    | none => some v
    | some m => some (if v ≤ m then v else m)) none

/-- Maximum of the non-null values, null when none, as pandas `max`. -/
def maxOpt (l : List (Option ℚ)) : Option ℚ :=
  (l.filterMap id).foldr (fun v acc =>
    match acc with
    | none => some v
    | some m => some (if m ≤ v then v else m)) none

/-- Descriptive statistics of one numeric column. -/
def describeNumeric (l : List (Option ℚ)) : NumericStats :=
  { count := (l.filterMap id).length
    mean := meanOpt l
    min := minOpt l
    max := maxOpt l }

/-- Number of occurrences of a value in the non-null part of a column. -/
def occCount (l : List (Option String)) (v : String) : Nat :=
  (l.filterMap id).countP (fun x => x == v)

/-- Most frequent non-null value (first occurrence wins ties, matching the
arbitrary pandas tie-break), null on an all-null column. -/
def topOpt (l : List (Option String)) : Option String :=
  (firstUniques (l.filterMap id)).foldl (fun acc v =>
    match acc with
    | none => some v
    | some m => if occCount l v > occCount l m then some v else some m) none

/-- Descriptive statistics of one categorical column. -/
def describeCat (l : List (Option String)) : CategoricalStats :=
  { count := (l.filterMap id).length
    unique := nuniqueOpt l
    top := topOpt l
    freq := (topOpt l).map (occCount l) }

/-- Model of `filtered_df.describe(include='all')` (src/app.py line 160): per-column
descriptive statistics of the filtered view. -/
structure DescribeAll where
  year : NumericStats
  valuation : NumericStats
  permit_type : CategoricalStats
  contractor_business_name : CategoricalStats
  census_tract : CategoricalStats
  business_name : CategoricalStats
  business_type : CategoricalStats
deriving DecidableEq, Repr

/-- Descriptive statistics of every column of a merged view (src/app.py
line 160). -/
def describeAll (rows : List MergedRecord) : DescribeAll :=
  { year := describeNumeric (rows.map (fun r => r.year.map (fun y => (y : ℚ))))
    valuation := describeNumeric (rows.map (fun r => r.valuation))
    permit_type := describeCat (rows.map (fun r => r.permit_type))
    contractor_business_name :=
      describeCat (rows.map (fun r => r.contractor_business_name))
    census_tract := describeCat (rows.map (fun r => r.census_tract))
    business_name := describeCat (rows.map (fun r => r.business_name))
    business_type := describeCat (rows.map (fun r => r.business_type)) }

/-! ### Concrete rows used in examples and witnesses -/

/-- The spec's example permit row:
`{ISSUE_DATE: "2019-05-01", VALUATION: "$12,000", PERMIT_TYPE: "Electrical",
CONTRACTOR_BUSINESS_NAME: "Acme"}`. -/
def exampleRow : PermitRecord :=
  { issue_date := "2019-05-01"
    valuation := "$12,000"
    permit_type := some "Electrical"
    contractor_business_name := some "Acme"
    census_tract := some "1011.10" }

/-- A contractor matching the example row's business name. -/
def exampleContractor : Contractor :=
  { business_name := some "Acme", business_type := some "General" }

/-- A permit row whose issue date fails to parse. -/
def badDateRow : PermitRecord :=
  { issue_date := "not-a-date"
    valuation := "100"
    permit_type := some "Electrical"
    contractor_business_name := some "Acme"
    census_tract := some "1011.10" }

/-- A filter selection used to instantiate universally quantified
statements. -/
def exampleCriteria : FilterCriteria :=
  { year_lo := 2013
    year_hi := 2023
    permits := ["Electrical"]
    businesses := ["General"] }

/-- A merged 2019 "Electrical" row for contractor "Acme". -/
def pairRow1 : MergedRecord :=
  { issue_date := some ⟨2019, 5, 1⟩
    year := some 2019
    valuation := some 12000
    permit_type := some "Electrical"
    contractor_business_name := some "Acme"
    census_tract := some "1011.10"
    business_name := some "Acme"
    business_type := some "General" }

/-- A merged 2020 "Electrical" row for contractor "Best Build". -/
def pairRow2 : MergedRecord :=
  { issue_date := some ⟨2020, 6, 2⟩
    year := some 2020
    valuation := some 500
    permit_type := some "Electrical"
    contractor_business_name := some "Best Build"
    census_tract := some "1012.20"
    business_name := some "Best Build"
    business_type := some "Plumbing" }

/-- Two merged rows sharing the permit type "Electrical" with two distinct
contractor business names, the spec's by-permit-type aggregation example. -/
def pairRows : List MergedRecord := [pairRow1, pairRow2]

/-! ### Helper lemmas -/

theorem mem_firstUniquesAux {α : Type} [DecidableEq α] (l : List α) :
    ∀ (seen : List α) (a : α),
      a ∈ firstUniquesAux seen l ↔ a ∈ l ∧ a ∉ seen := by
  induction l with
  | nil => intro seen a; simp [firstUniquesAux]
  | cons b bs ih =>
    intro seen a
    by_cases hb : b ∈ seen
    · simp only [firstUniquesAux, if_pos hb, ih, List.mem_cons]
      constructor
      · rintro ⟨h1, h2⟩; exact ⟨Or.inr h1, h2⟩
      · rintro ⟨h1, h2⟩
        refine ⟨h1.resolve_left ?_, h2⟩
        rintro rfl; exact h2 hb
    · simp only [firstUniquesAux, if_neg hb, List.mem_cons, ih]
      by_cases hab : a = b
      · subst hab; simp [hb]
      · simp [hab]

theorem mem_firstUniques {α : Type} [DecidableEq α] (l : List α) (a : α) :
    a ∈ firstUniques l ↔ a ∈ l := by
  simp [firstUniques, mem_firstUniquesAux]

theorem mem_insertLe {α : Type} (le : α → α → Bool) (a x : α) (l : List α) :
    x ∈ insertLe le a l ↔ x = a ∨ x ∈ l := by
  induction l with
  | nil => simp [insertLe]
  | cons b bs ih =>
    by_cases h : le a b
    · simp [insertLe, h]
    · simp [insertLe, h, ih]
      tauto

theorem mem_sortLe {α : Type} (le : α → α → Bool) (x : α) (l : List α) :
    x ∈ sortLe le l ↔ x ∈ l := by
  induction l with
  | nil => simp [sortLe]
  | cons b bs ih => simp [sortLe, mem_insertLe, ih]

theorem pairwise_insertLe {α : Type} (le : α → α → Bool)
    (htot : ∀ a b, le a b = true ∨ le b a = true)
    (htr : ∀ a b c, le a b = true → le b c = true → le a c = true)
    (a : α) (l : List α) (hl : l.Pairwise (fun x y => le x y = true)) :
    (insertLe le a l).Pairwise (fun x y => le x y = true) := by
  induction l with
  | nil => simp [insertLe]
  | cons b bs ih =>
    rw [List.pairwise_cons] at hl
    obtain ⟨hb, hbs⟩ := hl
    by_cases h : le a b
    · simp only [insertLe, if_pos h]
      rw [List.pairwise_cons]
      refine ⟨?_, List.pairwise_cons.mpr ⟨hb, hbs⟩⟩
      intro x hx
      rcases List.mem_cons.mp hx with rfl | hx'
      · exact h
      · exact htr a b x h (hb x hx')
    · simp only [insertLe, if_neg h]
      rw [List.pairwise_cons]
      refine ⟨?_, ih hbs⟩
      intro x hx
      rcases (mem_insertLe le a x bs).mp hx with rfl | hx'
      · exact (htot x b).resolve_left (by simpa using h)
      · exact hb x hx'

theorem pairwise_sortLe {α : Type} (le : α → α → Bool)
    (htot : ∀ a b, le a b = true ∨ le b a = true)
    (htr : ∀ a b c, le a b = true → le b c = true → le a c = true)
    (l : List α) :
    (sortLe le l).Pairwise (fun x y => le x y = true) := by
  induction l with
  | nil => simp [sortLe]
  | cons b bs ih => exact pairwise_insertLe le htot htr b (sortLe le bs) ih

theorem length_filterMap_of_ne_none {α β : Type} (f : α → Option β)
    (l : List α) (h : ∀ x ∈ l, f x ≠ none) :
    (l.filterMap f).length = l.length := by
  induction l with
  | nil => simp
  | cons a as ih =>
    have ha := h a (List.mem_cons_self a as)
    obtain ⟨b, hb⟩ := Option.ne_none_iff_exists.mp ha
    rw [List.filterMap_cons, ← hb]
    simp only [List.length_cons]
    rw [ih (fun x hx => h x (List.mem_cons_of_mem a hx))]

theorem length_filter_le_one_of_nodup_map {α β : Type} [BEq β] [LawfulBEq β]
    (f : α → β) (k : β) (l : List α) (h : (l.map f).Nodup) :
    (l.filter (fun x => f x == k)).length ≤ 1 := by
  induction l with
  | nil => simp
  | cons a as ih =>
    rw [List.map_cons, List.nodup_cons] at h
    by_cases hk : f a == k
    · have hrest : as.filter (fun x => f x == k) = [] := by
        rw [List.filter_eq_nil_iff]
        intro x hx hpx
        apply h.1
        rw [beq_iff_eq] at hpx hk
        rw [hk, ← hpx]
        exact List.mem_map_of_mem f hx
      simp [List.filter_cons, hk, hrest]
    · simp only [List.filter_cons, hk, Bool.false_eq_true, if_false]
      exact ih h.2

theorem length_mergeOne (t : TransformedRecord) (cs : List Contractor)
    (h : (cs.map (fun c => c.business_name)).Nodup) :
    (mergeOne t cs).length = 1 := by
  have hle : (cs.filter
      (fun c => c.business_name == t.contractor_business_name)).length ≤ 1 :=
    length_filter_le_one_of_nodup_map (fun c => c.business_name)
      t.contractor_business_name cs h
  simp only [mergeOne]
  cases hf : cs.filter (fun c => c.business_name == t.contractor_business_name) with
  | nil => simp
  | cons c ms =>
    rw [hf] at hle
    simp only [List.length_cons] at hle
    have : ms.length = 0 := by omega
    simp [List.isEmpty, this, List.length_eq_zero.mp this]

theorem length_leftJoin (ts : List TransformedRecord) (cs : List Contractor)
    (h : (cs.map (fun c => c.business_name)).Nodup) :
    (leftJoin ts cs).length = ts.length := by
  induction ts with
  | nil => rfl
  | cons t ts ih =>
    simp only [leftJoin, List.flatMap_cons, List.length_append]
    rw [length_mergeOne t cs h]
    simp only [leftJoin] at ih
    rw [ih, List.length_cons]
    omega

theorem mem_mergeOne_fields (t : TransformedRecord) (cs : List Contractor)
    (m : MergedRecord) (h : m ∈ mergeOne t cs) :
    m.year = t.year ∧ m.permit_type = t.permit_type ∧
      m.contractor_business_name = t.contractor_business_name := by
  simp only [mergeOne] at h
  split at h
  · rw [List.mem_singleton] at h
    subst h; exact ⟨rfl, rfl, rfl⟩
  · obtain ⟨c, _, hc⟩ := List.mem_map.mp h
    subst hc; exact ⟨rfl, rfl, rfl⟩

theorem mem_mergeOne_business_type (t : TransformedRecord)
    (cs : List Contractor) (m : MergedRecord) (h : m ∈ mergeOne t cs) :
    m.business_type = none ∨
      ∃ c ∈ cs, c.business_name = t.contractor_business_name ∧
        m.business_type = c.business_type := by
  simp only [mergeOne] at h
  split at h
  · rw [List.mem_singleton] at h
    subst h; exact Or.inl rfl
  · obtain ⟨c, hcmem, hc⟩ := List.mem_map.mp h
    have hcname := (List.mem_filter.mp hcmem).2
    rw [beq_iff_eq] at hcname
    subst hc
    exact Or.inr ⟨c, (List.mem_filter.mp hcmem).1, hcname, rfl⟩

theorem mem_mergeOne_unmatched (t : TransformedRecord) (cs : List Contractor)
    (m : MergedRecord) (h : m ∈ mergeOne t cs)
    (hno : ∀ c ∈ cs, c.business_name ≠ t.contractor_business_name) :
    m.business_type = none := by
  rcases mem_mergeOne_business_type t cs m h with hn | ⟨c, hc, he, _⟩
  · exact hn
  · exact absurd he (hno c hc)

theorem mem_mergedDf (records : List PermitRecord)
    (contractors : List Contractor) (m : MergedRecord)
    (h : m ∈ mergedDf records contractors) :
    ∃ p ∈ records, m ∈ mergeOne (transformRecord p) contractors := by
  simp only [mergedDf, leftJoin, List.mem_flatMap] at h
  obtain ⟨t, ht, hm⟩ := h
  obtain ⟨p, hp, hpt⟩ := List.mem_map.mp ht
  exact ⟨p, hp, hpt ▸ hm⟩

theorem mem_dropnaUnique (l : List (Option String)) (x : String) :
    x ∈ dropnaUnique l ↔ some x ∈ l := by
  simp [dropnaUnique, mem_firstUniques, List.mem_filterMap]

/-- A merged row with a null derived year, used to instantiate exclusion
statements. -/
def nullYearRow : MergedRecord :=
  { issue_date := none
    year := none
    valuation := none
    permit_type := some "Electrical"
    contractor_business_name := some "Acme"
    census_tract := some "1011.10"
    business_name := some "Acme"
    business_type := some "General" }

/-! ### The claims -/

/-- C3: for every merged dataset and every `FilterCriteria`, a row whose
`YEAR`, `PERMIT_TYPE` or `BUSINESS_TYPE` is null never appears in the
filtered view, because the range and membership tests evaluate false on
null. -/
theorem spec_C3 (c : FilterCriteria) (rows : List MergedRecord)
    (r : MergedRecord)
    (h : r.year = none ∨ r.permit_type = none ∨ r.business_type = none) :
    r ∉ filteredView c rows := by
  intro hmem
  have hp := (List.mem_filter.mp hmem).2
  simp only [rowPasses, Bool.and_eq_true] at hp
  obtain ⟨⟨⟨h1, _⟩, h3⟩, h4⟩ := hp
  rcases h with h | h | h
  · rw [h] at h1; simp [optGe] at h1
  · rw [h] at h3; simp [optIsin] at h3
  · rw [h] at h4; simp [optIsin] at h4

theorem spec_C3_witness :
    (nullYearRow.year = none ∨ nullYearRow.permit_type = none ∨
      nullYearRow.business_type = none) ∧
    nullYearRow ∉ filteredView exampleCriteria [nullYearRow] :=
  ⟨Or.inl rfl, spec_C3 exampleCriteria [nullYearRow] nullYearRow (Or.inl rfl)⟩

/-- C4: a permit row whose `ISSUE_DATE` string is unparseable gets a null
derived `YEAR` from the transformer, and every merged row it contributes is
excluded from every filtered view, whatever the year range selected. -/
theorem spec_C4 (r : PermitRecord) (cs : List Contractor)
    (crit : FilterCriteria) (rows : List MergedRecord) (m : MergedRecord)
    (hdate : parseDate r.issue_date = none)
    (hm : m ∈ mergeOne (transformRecord r) cs) :
    (transformRecord r).year = none ∧ m ∉ filteredView crit rows := by
  have hy : (transformRecord r).year = none := by
    simp [transformRecord, hdate]
  refine ⟨hy, ?_⟩
  intro hmem
  have hp := (List.mem_filter.mp hmem).2
  simp only [rowPasses, Bool.and_eq_true] at hp
  obtain ⟨⟨⟨h1, _⟩, _⟩, _⟩ := hp
  rw [(mem_mergeOne_fields _ _ _ hm).1, hy] at h1
  simp [optGe] at h1

theorem spec_C4_witness :
    parseDate badDateRow.issue_date = none ∧
    ((transformRecord badDateRow).year = none ∧
      extendRecord (transformRecord badDateRow) none none ∉
        filteredView exampleCriteria
          [extendRecord (transformRecord badDateRow) none none]) :=
  ⟨by decide,
    spec_C4 badDateRow [] exampleCriteria
      [extendRecord (transformRecord badDateRow) none none]
      (extendRecord (transformRecord badDateRow) none none)
      (by decide) (by decide)⟩

/-- C5: the spec's example row `{ISSUE_DATE: "2019-05-01", VALUATION:
"$12,000"}` transforms to `YEAR = 2019` and `VALUATION = 12000`: the date
string parses with its year extracted, and the valuation has `$` and `,`
stripped before numeric parsing. -/
theorem spec_C5 :
    (transformRecord exampleRow).year = some 2019 ∧
    (transformRecord exampleRow).valuation = some (12000 : ℚ) := by
  decide

/-- C6: filtering is idempotent: applying the same `FilterCriteria` to the
output of the filter yields the same filtered view as applying it once. -/
theorem spec_C6 (c : FilterCriteria) (rows : List MergedRecord) :
    filteredView c (filteredView c rows) = filteredView c rows := by
  simp [filteredView, List.filter_filter]

/-- C9: every aggregation tolerates an empty filtered view: on the empty
input, the by-permit-type, by-census-tract and by-year summaries are empty
and the descriptive statistics are zero-count and all-null, with no error
raised (the functions are total). -/
theorem spec_C9 :
    df_permit [] = [] ∧ df_scatter [] = [] ∧ df_time [] = [] ∧
    describeAll [] =
      { year := { count := 0, mean := none, min := none, max := none }
        valuation := { count := 0, mean := none, min := none, max := none }
        permit_type := { count := 0, unique := 0, top := none, freq := none }
        contractor_business_name :=
          { count := 0, unique := 0, top := none, freq := none }
        census_tract := { count := 0, unique := 0, top := none, freq := none }
        business_name := { count := 0, unique := 0, top := none, freq := none }
        business_type :=
          { count := 0, unique := 0, top := none, freq := none } } :=
  ⟨rfl, rfl, rfl, rfl⟩

/-- C1 counterexample: with one parseable 2019 permit row and an empty
contractor table, the merged set has one row (with null `BUSINESS_TYPE`),
but the default criteria filter it out, so the default filtered view is not
the full merged set. -/
theorem spec_C1_counterexample :
    filteredView (defaultCriteria [exampleRow] []) (mergedDf [exampleRow] [])
      ≠ mergedDf [exampleRow] [] := by
  decide

/-- C1 (amended): applying the default criteria (`year` slider at its fixed
default `(2013, 2023)`, all observed permit types of the permit table, all
observed business types of the contractor table) returns the full merged
set, provided every merged row passes the default year-range test (its
`YEAR` is non-null and within 2013..2023) and has non-null `PERMIT_TYPE`
and non-null `BUSINESS_TYPE`. -/
theorem spec_C1 (records : List PermitRecord) (contractors : List Contractor)
    (hy : ∀ r ∈ mergedDf records contractors,
      optGe r.year 2013 = true ∧ optLe r.year 2023 = true)
    (hp : ∀ r ∈ mergedDf records contractors, r.permit_type ≠ none)
    (hb : ∀ r ∈ mergedDf records contractors, r.business_type ≠ none) :
    filteredView (defaultCriteria records contractors)
      (mergedDf records contractors) = mergedDf records contractors := by
  unfold filteredView
  rw [List.filter_eq_self]
  intro r hr
  simp only [rowPasses, Bool.and_eq_true]
  obtain ⟨h1, h2⟩ := hy r hr
  obtain ⟨p, hpmem, hmo⟩ := mem_mergedDf records contractors r hr
  refine ⟨⟨⟨h1, h2⟩, ?_⟩, ?_⟩
  · cases hv : r.permit_type with
    | none => exact absurd hv (hp r hr)
    | some v =>
      have hperm : p.permit_type = some v := by
        have hf := (mem_mergeOne_fields _ _ _ hmo).2.1
        rw [hv] at hf
        exact hf.symm
      have hvmem : v ∈ dropnaUnique (records.map (fun r => r.permit_type)) := by
        rw [mem_dropnaUnique, List.mem_map]
        exact ⟨p, hpmem, hperm⟩
      simp only [optIsin, defaultCriteria]
      exact List.elem_iff.mpr hvmem
  · cases hv : r.business_type with
    | none => exact absurd hv (hb r hr)
    | some v =>
      rcases mem_mergeOne_business_type _ _ _ hmo with hn | ⟨c, hc, _, he⟩
      · rw [hv] at hn; exact absurd hn (by simp)
      · have hvmem : v ∈ dropnaUnique (contractors.map (fun c => c.business_type)) := by
          rw [mem_dropnaUnique, List.mem_map]
          exact ⟨c, hc, by rw [← he, hv]⟩
        simp only [optIsin, defaultCriteria]
        exact List.elem_iff.mpr hvmem

theorem spec_C1_witness :
    filteredView (defaultCriteria [exampleRow] [exampleContractor])
        (mergedDf [exampleRow] [exampleContractor])
      = mergedDf [exampleRow] [exampleContractor] :=
  spec_C1 [exampleRow] [exampleContractor]
    (by decide) (by decide) (by decide)

/-- C2: when the contractor table's `BUSINESS_NAME` values are pairwise
distinct, the left join yields exactly one output row per permit row, and a
merged row whose `CONTRACTOR_BUSINESS_NAME` matches no contractor has a
null `BUSINESS_TYPE`. -/
theorem spec_C2 (records : List PermitRecord) (contractors : List Contractor)
    (h : (contractors.map (fun c => c.business_name)).Nodup)
    (m : MergedRecord) (hm : m ∈ mergedDf records contractors)
    (hno : ∀ c ∈ contractors, c.business_name ≠ m.contractor_business_name) :
    (mergedDf records contractors).length = records.length ∧
      m.business_type = none := by
  constructor
  · rw [mergedDf, length_leftJoin _ _ h, List.length_map]
  · obtain ⟨p, _, hmo⟩ := mem_mergedDf records contractors m hm
    apply mem_mergeOne_unmatched _ _ _ hmo
    intro c hc
    rw [← (mem_mergeOne_fields _ _ _ hmo).2.2]
    exact hno c hc

theorem spec_C2_witness :
    (mergedDf [exampleRow] []).length = ([exampleRow] : List PermitRecord).length ∧
      (extendRecord (transformRecord exampleRow) none none).business_type = none :=
  spec_C2 [exampleRow] [] (by decide)
    (extendRecord (transformRecord exampleRow) none none)
    (by decide) (by decide)

theorem rowPasses_fields (c : FilterCriteria) (r : MergedRecord)
    (h : rowPasses c r = true) :
    r.year ≠ none ∧ r.permit_type ≠ none ∧ r.business_type ≠ none := by
  simp only [rowPasses, Bool.and_eq_true] at h
  obtain ⟨⟨⟨h1, _⟩, h3⟩, h4⟩ := h
  refine ⟨?_, ?_, ?_⟩
  · intro hn; rw [hn] at h1; simp [optGe] at h1
  · intro hn; rw [hn] at h3; simp [optIsin] at h3
  · intro hn; rw [hn] at h4; simp [optIsin] at h4

/-- C7: every row of `df_permit` reports, for its permit type, the count of
distinct non-null contractor business names and the count of rows of that
group; the output is sorted descending by the distinct-contractor count;
and on the spec's two-row example both counts are 2. -/
theorem spec_C7 (rows : List MergedRecord) (e : PermitTypeSummary)
    (h : e ∈ df_permit rows) :
    (e.num_contractors =
        nuniqueOpt ((permitGroup rows e.permit_type).map
          (fun r => r.contractor_business_name)) ∧
      e.num_permits = (permitGroup rows e.permit_type).length) ∧
    (df_permit rows).Pairwise
      (fun a b => b.num_contractors ≤ a.num_contractors) ∧
    df_permit pairRows =
      [{ permit_type := "Electrical", num_contractors := 2, num_permits := 2 }] := by
  refine ⟨?_, ?_, by decide⟩
  · simp only [df_permit] at h
    rw [mem_sortLe] at h
    obtain ⟨k, _, he⟩ := List.mem_map.mp h
    subst he
    refine ⟨rfl, ?_⟩
    apply length_filterMap_of_ne_none
    intro x hx
    have hxk := (List.mem_filter.mp hx).2
    rw [beq_iff_eq] at hxk
    rw [hxk]
    simp
  · have hs := pairwise_sortLe
      (fun a b : PermitTypeSummary => decide (b.num_contractors ≤ a.num_contractors))
      (fun a b => by
        rcases Nat.le_total b.num_contractors a.num_contractors with hle | hle
        · exact Or.inl (decide_eq_true hle)
        · exact Or.inr (decide_eq_true hle))
      (fun a b c hab hbc =>
        decide_eq_true (Nat.le_trans (of_decide_eq_true hbc) (of_decide_eq_true hab)))
      ((sortLe strLe (firstUniques (rows.filterMap (fun r => r.permit_type)))).map
        (fun k =>
          let g := permitGroup rows k
          { permit_type := k
            num_contractors := nuniqueOpt (g.map (fun r => r.contractor_business_name))
            num_permits := (g.filterMap (fun r => r.permit_type)).length }))
    simp only [df_permit]
    exact hs.imp (fun hx => of_decide_eq_true hx)

theorem spec_C7_witness :
    ((({ permit_type := "Electrical", num_contractors := 2, num_permits := 2 } :
          PermitTypeSummary).num_contractors =
        nuniqueOpt ((permitGroup pairRows "Electrical").map
          (fun r => r.contractor_business_name)) ∧
      ({ permit_type := "Electrical", num_contractors := 2, num_permits := 2 } :
          PermitTypeSummary).num_permits =
        (permitGroup pairRows "Electrical").length) ∧
    (df_permit pairRows).Pairwise
      (fun a b => b.num_contractors ≤ a.num_contractors) ∧
    df_permit pairRows =
      [{ permit_type := "Electrical", num_contractors := 2, num_permits := 2 }]) :=
  spec_C7 pairRows
    { permit_type := "Electrical", num_contractors := 2, num_permits := 2 }
    (by decide)

/-- C8: every row of `df_time` over a filtered view reports the number of
rows of its year group (the non-null `PERMIT_TYPE` count coincides with the
row count because filtered rows have non-null permit types), and the output
is sorted ascending by year. -/
theorem spec_C8 (c : FilterCriteria) (m : List MergedRecord)
    (e : YearSummary) (h : e ∈ df_time (filteredView c m)) :
    e.permit_count =
      ((filteredView c m).filter (fun r => r.year == some e.year)).length ∧
    (df_time (filteredView c m)).Pairwise (fun a b => a.year ≤ b.year) := by
  constructor
  · simp only [df_time] at h
    rw [mem_sortLe] at h
    obtain ⟨k, _, he⟩ := List.mem_map.mp h
    subst he
    apply length_filterMap_of_ne_none
    intro x hx
    have hxf := (List.mem_filter.mp hx).1
    exact (rowPasses_fields c x (List.mem_filter.mp hxf).2).2.1
  · have hs := pairwise_sortLe (fun a b : YearSummary => intLe a.year b.year)
      (fun a b => by
        rcases Int.le_total a.year b.year with hle | hle
        · exact Or.inl (decide_eq_true hle)
        · exact Or.inr (decide_eq_true hle))
      (fun a b c hab hbc =>
        decide_eq_true (Int.le_trans (of_decide_eq_true hab) (of_decide_eq_true hbc)))
      ((sortLe intLe (firstUniques ((filteredView c m).filterMap (fun r => r.year)))).map
        (fun k =>
          { year := k
            permit_count :=
              (((filteredView c m).filter (fun r => r.year == some k)).filterMap
                (fun r => r.permit_type)).length }))
    simp only [df_time]
    exact hs.imp (fun hx => of_decide_eq_true hx)

theorem spec_C8_witness :
    (({ year := 2019, permit_count := 1 } : YearSummary).permit_count =
      ((filteredView exampleCriteria pairRows).filter
        (fun r => r.year == some ({ year := 2019, permit_count := 1 } : YearSummary).year)).length ∧
    (df_time (filteredView exampleCriteria pairRows)).Pairwise
      (fun a b => a.year ≤ b.year)) :=
  spec_C8 exampleCriteria pairRows { year := 2019, permit_count := 1 } (by decide)

/-- C10: every row of a filtered view has non-null `YEAR`, `PERMIT_TYPE`
and `BUSINESS_TYPE`; consequently, in the by-year aggregation, the non-null
`PERMIT_TYPE` count of a year group equals the group's row count. -/
theorem spec_C10 (c : FilterCriteria) (m : List MergedRecord)
    (r : MergedRecord) (hr : r ∈ filteredView c m) (k : Int) :
    (r.year ≠ none ∧ r.permit_type ≠ none ∧ r.business_type ≠ none) ∧
    (((filteredView c m).filter (fun x => x.year == some k)).filterMap
        (fun x => x.permit_type)).length =
      ((filteredView c m).filter (fun x => x.year == some k)).length := by
  constructor
  · exact rowPasses_fields c r (List.mem_filter.mp hr).2
  · apply length_filterMap_of_ne_none
    intro x hx
    have hxf := (List.mem_filter.mp hx).1
    exact (rowPasses_fields c x (List.mem_filter.mp hxf).2).2.1

theorem spec_C10_witness :
    ((pairRow1.year ≠ none ∧ pairRow1.permit_type ≠ none ∧
        pairRow1.business_type ≠ none) ∧
    (((filteredView exampleCriteria pairRows).filter
        (fun x => x.year == some 2019)).filterMap
        (fun x => x.permit_type)).length =
      ((filteredView exampleCriteria pairRows).filter
        (fun x => x.year == some 2019)).length) :=
  spec_C10 exampleCriteria pairRows pairRow1 (by decide) 2019

end Dashboard
